import Mathlib

/-!
Shallow embedding of the agentic-research-backend core:
`src/app/agents.py` (ExecutiveBot, BoardRoom),
`src/scripts/multi_agent_optimization.py` (MultiAgentOptimizer), and
`src/data/mongodb_client.py` (SimulationComparator.log_simulation_run).
Numeric values are modelled as exact rationals; Python dicts of KPI values
as association lists; fallible code (ZeroDivisionError) as Option.
-/

namespace AgenticBackend

/-- A KPI record: flat mapping from metric name to numeric value
(Python dict passed to `evaluate` / `recommend` / `optimize_next_year`). -/
def KPIRecord : Type := List (String × ℚ)

/-- `dict.get(key)` on a KPI record. -/
def KPIRecord.get (r : KPIRecord) (k : String) : Option ℚ :=
  List.lookup k r

/-- `dict.get(key, default)` on a KPI record. -/
def KPIRecord.getD (r : KPIRecord) (k : String) (d : ℚ) : ℚ :=
  (r.get k).getD d

/-- An agent target: optional `min` / optional `max`
(`self.target.get("min", float("-inf"))` semantics, absent bound means
unconstrained on that side). -/
structure Target where
  min : Option ℚ
  max : Option ℚ
deriving DecidableEq, Repr

/-- Personality vector of an ExecutiveBot. -/
structure Personality where
  risk_tolerance : ℚ
  friendliness : ℚ
  ambition : ℚ
deriving DecidableEq, Repr

/-- `ExecutiveBot` from `src/app/agents.py`. -/
structure ExecutiveBot where
  name : String
  kpi_focus : String
  target : Target
  personality : Personality
deriving DecidableEq, Repr

/-- `kpi_value < target_min` where `target_min = self.target.get("min", float("-inf"))`:
comparison against the default `-inf` is always false. -/
def belowMin (t : Target) (v : ℚ) : Bool :=
  match t.min with
  | some m => decide (v < m)
  | none => false

/-- `kpi_value > target_max` where `target_max = self.target.get("max", float("inf"))`:
comparison against the default `+inf` is always false. -/
def aboveMax (t : Target) (v : ℚ) : Bool :=
  match t.max with
  | some m => decide (v > m)
  | none => false

/-- Status labels computed by `ExecutiveBot.evaluate`. -/
inductive Status where
  | on_target
  | below_target
  | above_target
deriving DecidableEq, Repr

/-- The status computation of `ExecutiveBot.evaluate` (agents.py lines 31-38):
start from "on target", set "below target" when `kpi_value < target_min`,
else "above target" when `kpi_value > target_max`. -/
def ExecutiveBot.statusOf (bot : ExecutiveBot) (v : ℚ) : Status :=
  if belowMin bot.target v then .below_target
  else if aboveMax bot.target v then .above_target
  else .on_target

/-- `ExecutiveBot._get_personality_comment` (agents.py lines 52-75):
collect personality-gated clauses for the given status, joined by
`" ".join(comments)`.  The `kpi_value` argument is accepted and unused,
as in the source. -/
def ExecutiveBot.getPersonalityComment (bot : ExecutiveBot) (status : Status)
    (_kpi_value : ℚ) : String :=
  let comments : List String :=
    match status with
    | .below_target =>
        (if bot.personality.risk_tolerance > 0.7 then
            [" (willing to take aggressive action)"]
         else if bot.personality.risk_tolerance < 0.3 then
            [" (cautious, prefers gradual improvements)"]
         else []) ++
        (if bot.personality.ambition > 0.8 then
            [" (pushing hard for improvement)"]
         else [])
    | .above_target =>
        if bot.personality.risk_tolerance < 0.3 then
          [" (concerned about sustainability)"]
        else if bot.personality.ambition > 0.8 then
          [" (wants even higher targets)"]
        else []
    | .on_target =>
        if bot.personality.friendliness > 0.7 then
          [" (satisfied with team performance)"]
        else []
  String.intercalate " " comments

/-- Outcome of `ExecutiveBot.evaluate`: either the KPI was absent
(the returned string reports it was not found) or a status plus the
personality comment was rendered.  The numeric formatting of the value
inside the rendered string is a presentation detail and is not modelled. -/
inductive EvalOutcome where
  | unknown (msg : String)
  | evaluated (status : Status) (comment : String)
deriving DecidableEq, Repr

/-- `ExecutiveBot.evaluate` (agents.py lines 24-50). -/
def ExecutiveBot.evaluate (bot : ExecutiveBot) (results : KPIRecord) : EvalOutcome :=
  match results.get bot.kpi_focus with
  | none =>
      .unknown (bot.name ++ ": KPI \x27" ++ bot.kpi_focus ++ "\x27 not found in results")
  | some kpi_value =>
      let status := bot.statusOf kpi_value
      .evaluated status (bot.getPersonalityComment status kpi_value)

/-- `ExecutiveBot.recommend` (agents.py lines 77-100). -/
def ExecutiveBot.recommend (bot : ExecutiveBot) (results : KPIRecord) : String :=
  match results.get bot.kpi_focus with
  | none => bot.name ++ ": Cannot recommend without " ++ bot.kpi_focus ++ " data"
  | some kpi_value =>
      if belowMin bot.target kpi_value then
        if bot.personality.risk_tolerance > 0.6 then
          bot.name ++ ": Increase investment aggressively to reach target"
        else
          bot.name ++ ": Gradual increase recommended to reach target"
      else if aboveMax bot.target kpi_value then
        bot.name ++ ": Reduce spending and optimize efficiency"
      else
        if bot.personality.ambition > 0.7 then
          bot.name ++ ": Maintain strategy but explore optimization opportunities"
        else
          bot.name ++ ": Maintain current strategy"

/-- `BoardRoom.simulate_interaction` (agents.py lines 117-135).
The collaborative branch divides by `len(self.bots)`; on an empty panel
Python raises ZeroDivisionError, modelled here as `none`. -/
def simulate_interaction (bots : List ExecutiveBot) (setting : String) : Option String :=
  if setting == "collaborative" then
    if bots.length = 0 then none
    else
      let avg_friendliness :=
        (bots.map (fun b => b.personality.friendliness)).sum / (bots.length : ℚ)
      if avg_friendliness > 0.7 then
        some "Bots work together constructively, finding common ground and shared strategy."
      else
        some "Bots align toward compromise, though some tension remains."
  else if setting == "hostile" then
    some "Bots argue over priorities, each defending their domain. No consensus reached."
  else
    some "Professional interaction. Each bot focuses on their own KPIs."

/-- A four-part budget allocation (or a vector of signed deltas on one):
shares `F1..F4` for prevention / detection / response / recovery. -/
structure Alloc where
  F1 : ℚ
  F2 : ℚ
  F3 : ℚ
  F4 : ℚ
deriving DecidableEq, Repr

/-- Componentwise addition of delta vectors (`adjustments[k] += d`). -/
def Alloc.add (a b : Alloc) : Alloc :=
  ⟨a.F1 + b.F1, a.F2 + b.F2, a.F3 + b.F3, a.F4 + b.F4⟩

/-- The zero delta vector (`adjustments = {F1:0, F2:0, F3:0, F4:0}`). -/
def Alloc.zero : Alloc := ⟨0, 0, 0, 0⟩

/-- The loop body of `MultiAgentOptimizer.optimize_next_year`
(multi_agent_optimization.py lines 354-381): the signed delta one agent
contributes to the accumulated adjustments.  An agent whose focus KPI is
absent is skipped (`continue`), i.e. contributes zero. -/
def agentDelta (current_results : KPIRecord) (agent : ExecutiveBot) : Alloc :=
  match current_results.get agent.kpi_focus with
  | none => Alloc.zero
  | some kpi_value =>
      if agent.name == "CFO" && belowMin agent.target kpi_value then
        ⟨2, 1, -1.5, -1.5⟩
      else if agent.name == "CRO" && aboveMax agent.target kpi_value then
        ⟨3, 2, -2, -3⟩
      else if agent.name == "COO" && belowMin agent.target kpi_value then
        ⟨1.5, 1, -1, -1.5⟩
      else Alloc.zero

/-- The adjustment accumulation loop of `optimize_next_year`
(lines 352-381): start from the zero delta and add each agent's delta. -/
def accumulatedAdjustments (agents : List ExecutiveBot) (current_results : KPIRecord) : Alloc :=
  agents.foldl (fun acc agent => acc.add (agentDelta current_results agent)) Alloc.zero

/-- The clamping step of `optimize_next_year` (lines 384-387): read the
current allocation from the results record (defaults 30/30/25/15), add the
accumulated adjustments, and clamp `F1,F2` to `[10,60]` and `F3,F4` to `[5,50]`. -/
def clampedAllocation (agents : List ExecutiveBot) (current_results : KPIRecord) : Alloc :=
  let current_f1 := current_results.getD "F1" 30
  let current_f2 := current_results.getD "F2" 30
  let current_f3 := current_results.getD "F3" 25
  let current_f4 := current_results.getD "F4" 15
  let adjustments := accumulatedAdjustments agents current_results
  ⟨max 10 (min 60 (current_f1 + adjustments.F1)),
   max 10 (min 60 (current_f2 + adjustments.F2)),
   max 5 (min 50 (current_f3 + adjustments.F3)),
   max 5 (min 50 (current_f4 + adjustments.F4))⟩

/-- `MultiAgentOptimizer.optimize_next_year` (lines 336-397): accumulate
agent deltas, clamp each component to its bound, then renormalize
proportionally so the four values sum to 100 (when the clamped total is
positive). -/
def optimize_next_year (agents : List ExecutiveBot) (current_results : KPIRecord) : Alloc :=
  let c := clampedAllocation agents current_results
  let total := c.F1 + c.F2 + c.F3 + c.F4
  if total > 0 then
    ⟨c.F1 * 100 / total, c.F2 * 100 / total, c.F3 * 100 / total, c.F4 * 100 / total⟩
  else c

/-- One row of the simulation CSV, restricted to the columns the optimizer
reads (`Cum. Profits`, `Comp. Systems`, `Months Completed`, `Ransomware`,
`Pay Ransom`). -/
structure SimRow where
  cumProfits : ℚ
  compSystems : ℚ
  monthsCompleted : ℚ
  ransomware : ℚ
  payRansom : ℚ
deriving DecidableEq, Repr

/-- `MultiAgentOptimizer.estimate_f1_f4_from_data`
(multi_agent_optimization.py lines 287-334). -/
def estimate_f1_f4_from_data (row : SimRow) : Alloc :=
  let profit := row.cumProfits
  let compromised := row.compSystems
  let ransomware := row.ransomware
  let pay_ransom := row.payRansom
  let a : Alloc := ⟨30, 30, 25, 15⟩
  let a : Alloc :=
    if compromised < 10 then ⟨a.F1 + 10, a.F2 + 5, a.F3 - 5, a.F4 - 10⟩
    else if compromised > 30 then ⟨a.F1 - 10, a.F2 - 5, a.F3 + 10, a.F4 + 5⟩
    else a
  let a : Alloc :=
    if profit < 1000 then
      if ransomware == 1 && pay_ransom == 1 then
        ⟨a.F1 - 5, a.F2 - 5, a.F3 - 5, a.F4 - 5⟩
      else ⟨a.F1, a.F2, a.F3 + 5, a.F4 + 5⟩
    else a
  let total := a.F1 + a.F2 + a.F3 + a.F4
  let a : Alloc :=
    if total > 0 then
      ⟨a.F1 * 100 / total, a.F2 * 100 / total, a.F3 * 100 / total, a.F4 * 100 / total⟩
    else a
  let a : Alloc :=
    ⟨max 10 (min 60 a.F1), max 10 (min 60 a.F2),
     max 5 (min 50 a.F3), max 5 (min 50 a.F4)⟩
  let total := a.F1 + a.F2 + a.F3 + a.F4
  if total > 0 then
    ⟨a.F1 * 100 / total, a.F2 * 100 / total, a.F3 * 100 / total, a.F4 * 100 / total⟩
  else a

/-- The 60-month restriction of `run_5_year_optimization` (lines 406-411):
keep the rows with `Months Completed == 60`, falling back to the whole
pool when none exist. -/
def fiveYearPool (scenario_data : List SimRow) : List SimRow :=
  let five := scenario_data.filter (fun r => r.monthsCompleted == 60)
  if five.length = 0 then scenario_data else five

/-- The seed score of `run_5_year_optimization` (lines 421-422):
`Cum. Profits / 1000 - Comp. Systems * 10`. -/
def seedScore (r : SimRow) : ℚ :=
  r.cumProfits / 1000 - r.compSystems * 10

/-- `five_year_data['score'].idxmax()` followed by `.loc`: the first row
achieving the maximal seed score (pandas `idxmax` returns the first index
of the maximum); `none` on an empty pool (where pandas raises). -/
def bestScoreRow : List SimRow → Option SimRow
  | [] => none
  | x :: xs =>
      some (xs.foldl (fun best r => if seedScore r > seedScore best then r else best) x)

/-- The year-1 seeding branch of `run_5_year_optimization` (lines 413-425):
with an initial strategy its `F1..F4` are taken and the first pool row is
used as the data point; without one, the best-scoring row is selected and
`F1..F4` estimated from it.  Returns `none` exactly when the underlying
pandas lookup would raise (empty pool). -/
def seedYear1 (scenario_data : List SimRow) (initial_strategy : Option Alloc) :
    Option (Alloc × SimRow) :=
  let five_year_data := fiveYearPool scenario_data
  match initial_strategy with
  | some s => five_year_data.head?.map (fun r => (s, r))
  | none => (bestScoreRow five_year_data).map (fun r => (estimate_f1_f4_from_data r, r))

/-- The personality-adjustment step of `MultiAgentOptimizer.__init__`
(multi_agent_optimization.py lines 224-239): shift ambition and
friendliness by ±0.2 according to the collaborative flag and
risk tolerance by ±0.3 according to the level string, clamping into
`[0,1]` with `min(1.0, ...)` / `max(0.0, ...)`. -/
def adjustPersonality (p : Personality) (collaborative : Bool)
    (risk_tolerance_level : String) : Personality :=
  let ambition :=
    if collaborative then min 1 (p.ambition + 0.2) else max 0 (p.ambition - 0.2)
  let friendliness :=
    if collaborative then min 1 (p.friendliness + 0.2) else max 0 (p.friendliness - 0.2)
  let risk_tolerance :=
    if risk_tolerance_level == "low" then max 0 (p.risk_tolerance - 0.3)
    else if risk_tolerance_level == "high" then min 1 (p.risk_tolerance + 0.3)
    else p.risk_tolerance
  ⟨risk_tolerance, friendliness, ambition⟩

/-- Status labels written by `SimulationComparator.log_simulation_run`. -/
inductive ComplianceStatus where
  | on_target
  | below_min
  | above_max
  | off_target
deriving DecidableEq, Repr

/-- The status computation of `SimulationComparator.log_simulation_run`
(mongodb_client.py lines 249-257): `below_min` when a min is given and the
actual value is under it; else `above_max` when a max is given and the
value is over it; else `off_target` when a target is given and the value
falls outside the closed band `target ± |target| * 0.1`; else `on_target`. -/
def complianceStatus (actual_value : ℚ) (min_value max_value target_value : Option ℚ) :
    ComplianceStatus :=
  if (match min_value with
      | some m => decide (actual_value < m)
      | none => false) then .below_min
  else if (match max_value with
      | some m => decide (actual_value > m)
      | none => false) then .above_max
  else match target_value with
    | some t =>
        let tolerance := |t| * 0.1
        if ¬ (t - tolerance ≤ actual_value ∧ actual_value ≤ t + tolerance) then
          .off_target
        else .on_target
    | none => .on_target

/-! Concrete instances used to exercise the definitions: the three panel
agents built by `MultiAgentOptimizer` from the default configuration of
`load_agent_config` (agents.py lines 141-187), and sample KPI records. -/

/-- The default CFO agent: focus `accumulated_profit`, target min 1200000. -/
def cfoDefault : ExecutiveBot :=
  ⟨"CFO", "accumulated_profit", ⟨some 1200000, none⟩, ⟨0.3, 0.6, 0.8⟩⟩

/-- The default CRO agent: focus `compromised_systems`, target max 10. -/
def croDefault : ExecutiveBot :=
  ⟨"CRO", "compromised_systems", ⟨none, some 10⟩, ⟨0.2, 0.5, 0.6⟩⟩

/-- The default COO agent: focus `systems_availability`, target min 0.92. -/
def cooDefault : ExecutiveBot :=
  ⟨"COO", "systems_availability", ⟨some 0.92, none⟩, ⟨0.5, 0.7, 0.7⟩⟩

/-- The three-agent panel `MultiAgentOptimizer` keeps after dropping
IT_Manager and CHRO (multi_agent_optimization.py lines 220-222),
with unadjusted personalities. -/
def defaultPanel : List ExecutiveBot := [cfoDefault, croDefault, cooDefault]

/-- A previous-year record whose allocation `F1=60, F2=10, F3=15, F4=15`
sums to 100 within bounds, and whose KPI values put the CFO below min,
the CRO above max and the COO below min, so all three deltas fire. -/
def prevYearRecord : KPIRecord :=
  [("accumulated_profit", 0), ("compromised_systems", 50),
   ("systems_availability", 0), ("F1", 60), ("F2", 10), ("F3", 15), ("F4", 15)]

/-- An above-target record for a max-10 profit target. -/
def aboveTargetRecord : KPIRecord := [("accumulated_profit", 20)]

/-- A CFO-like agent with high ambition and low risk tolerance whose
target is `max = 10`, used on `aboveTargetRecord`. -/
def ambitiousCautiousBot : ExecutiveBot :=
  ⟨"CFO", "accumulated_profit", ⟨none, some 10⟩, ⟨0.2, 0.5, 0.9⟩⟩

/-- A record without the `accumulated_profit` field. -/
def emptyRecord : KPIRecord := []

/-- Sample 60-month rows for the seeding claim. -/
def rowA : SimRow := ⟨5000, 3, 60, 0, 0⟩

/-- A second 60-month row, scoring lower than `rowA`. -/
def rowB : SimRow := ⟨2000, 1, 60, 0, 0⟩

/-- A 12-month row, excluded by the 60-month restriction. -/
def rowC : SimRow := ⟨9999, 0, 12, 0, 0⟩

/-- The agent of spec scenario example (2): profit focus, `min = 1000000`,
high risk tolerance. -/
def boundaryBot : ExecutiveBot :=
  ⟨"CFO", "accumulated_profit", ⟨some 1000000, none⟩, ⟨0.8, 0.5, 0.5⟩⟩

/-- The record of spec scenario example (2): value exactly at the min. -/
def boundaryRecord : KPIRecord := [("accumulated_profit", 1000000)]

/-- The record of spec scenario example (1): value below the min. -/
def belowRecord : KPIRecord := [("accumulated_profit", 800000)]

end AgenticBackend

namespace AgenticBackend

/-! Helper lemmas shared across the claim theorems. -/

/-- Appending on the left of a string is cancellative. -/
lemma string_append_left_cancel_iff (a : String) {b c : String} :
    a ++ b = a ++ c ↔ b = c := by
  constructor
  · intro h
    cases a; cases b; cases c
    simp_all [String.ext_iff]
  · intro h; rw [h]

/-- Componentwise bounds on the clamped allocation: each component of
`clampedAllocation` lies within its documented bound. -/
lemma clampedAllocation_bounds (agents : List ExecutiveBot) (results : KPIRecord) :
    (10 ≤ (clampedAllocation agents results).F1 ∧ (clampedAllocation agents results).F1 ≤ 60) ∧
    (10 ≤ (clampedAllocation agents results).F2 ∧ (clampedAllocation agents results).F2 ≤ 60) ∧
    (5 ≤ (clampedAllocation agents results).F3 ∧ (clampedAllocation agents results).F3 ≤ 50) ∧
    (5 ≤ (clampedAllocation agents results).F4 ∧ (clampedAllocation agents results).F4 ≤ 50) := by
  simp only [clampedAllocation]
  refine ⟨⟨le_max_left _ _, max_le (by norm_num) (min_le_left _ _)⟩,
          ⟨le_max_left _ _, max_le (by norm_num) (min_le_left _ _)⟩,
          ⟨le_max_left _ _, max_le (by norm_num) (min_le_left _ _)⟩,
          ⟨le_max_left _ _, max_le (by norm_num) (min_le_left _ _)⟩⟩

/-- The clamped total is positive (at least 30), so `optimize_next_year`
always takes the renormalization branch. -/
lemma clampedAllocation_total_pos (agents : List ExecutiveBot) (results : KPIRecord) :
    0 < (clampedAllocation agents results).F1 + (clampedAllocation agents results).F2 +
        (clampedAllocation agents results).F3 + (clampedAllocation agents results).F4 := by
  obtain ⟨⟨h1, -⟩, ⟨h2, -⟩, ⟨h3, -⟩, ⟨h4, -⟩⟩ := clampedAllocation_bounds agents results
  linarith

end AgenticBackend

namespace AgenticBackend

/-- C1 (counterexample): the claim fails on the code.  The previous-year
allocation `F1=60, F2=10, F3=15, F4=15` sums to 100 with every component
inside its documented bound, yet when the default panel's three deltas all
fire, `optimize_next_year` returns `F1 = 12000/187 > 60`: the proportional
renormalization after clamping pushes `F1` back above its bound. -/
theorem C1_bound_violation_counterexample :
    (prevYearRecord.getD "F1" 30 + prevYearRecord.getD "F2" 30 +
       prevYearRecord.getD "F3" 25 + prevYearRecord.getD "F4" 15 = 100 ∧
     10 ≤ prevYearRecord.getD "F1" 30 ∧ prevYearRecord.getD "F1" 30 ≤ 60 ∧
     10 ≤ prevYearRecord.getD "F2" 30 ∧ prevYearRecord.getD "F2" 30 ≤ 60 ∧
     5 ≤ prevYearRecord.getD "F3" 25 ∧ prevYearRecord.getD "F3" 25 ≤ 50 ∧
     5 ≤ prevYearRecord.getD "F4" 15 ∧ prevYearRecord.getD "F4" 15 ≤ 50) ∧
    (optimize_next_year defaultPanel prevYearRecord).F1 > 60 := by
  constructor
  · simp [prevYearRecord, KPIRecord.getD, KPIRecord.get, List.lookup]
    norm_num
  · have h1 : accumulatedAdjustments defaultPanel prevYearRecord = ⟨13/2, 4, -9/2, -6⟩ := by
      simp [accumulatedAdjustments, agentDelta, defaultPanel, prevYearRecord,
        cfoDefault, croDefault, cooDefault, KPIRecord.get, belowMin, aboveMax,
        Alloc.add, Alloc.zero, List.lookup]
      norm_num
    have h2 : clampedAllocation defaultPanel prevYearRecord = ⟨60, 14, 21/2, 9⟩ := by
      simp only [clampedAllocation]
      rw [h1]
      simp [prevYearRecord, KPIRecord.getD, KPIRecord.get, List.lookup]
      norm_num
    simp only [optimize_next_year]
    rw [h2]
    norm_num

/-- C1 (amended): for every panel and previous-year record,
`optimize_next_year` returns an allocation whose four components sum to
exactly 100, and the intermediate clamped values (before the proportional
renormalization) each lie within their documented bound; the final
renormalized components, however, are not guaranteed to stay within those
bounds (see the counterexample). -/
theorem C1_sum_invariant (agents : List ExecutiveBot) (current_results : KPIRecord) :
    (optimize_next_year agents current_results).F1 +
      (optimize_next_year agents current_results).F2 +
      (optimize_next_year agents current_results).F3 +
      (optimize_next_year agents current_results).F4 = 100 ∧
    (10 ≤ (clampedAllocation agents current_results).F1 ∧
       (clampedAllocation agents current_results).F1 ≤ 60) ∧
    (10 ≤ (clampedAllocation agents current_results).F2 ∧
       (clampedAllocation agents current_results).F2 ≤ 60) ∧
    (5 ≤ (clampedAllocation agents current_results).F3 ∧
       (clampedAllocation agents current_results).F3 ≤ 50) ∧
    (5 ≤ (clampedAllocation agents current_results).F4 ∧
       (clampedAllocation agents current_results).F4 ≤ 50) := by
  refine ⟨?_, clampedAllocation_bounds agents current_results⟩
  have hpos := clampedAllocation_total_pos agents current_results
  have hne : (clampedAllocation agents current_results).F1 +
      (clampedAllocation agents current_results).F2 +
      (clampedAllocation agents current_results).F3 +
      (clampedAllocation agents current_results).F4 ≠ 0 := ne_of_gt hpos
  simp only [optimize_next_year]
  rw [if_pos hpos]
  field_simp
  ring

end AgenticBackend

namespace AgenticBackend

/-- Characterization of `belowMin`: true exactly when a min bound exists
and the value is strictly under it. -/
lemma belowMin_iff (t : Target) (v : ℚ) :
    belowMin t v = true ↔ ∃ m, t.min = some m ∧ v < m := by
  unfold belowMin
  cases t.min <;> simp

/-- Characterization of `aboveMax`: true exactly when a max bound exists
and the value is strictly over it. -/
lemma aboveMax_iff (t : Target) (v : ℚ) :
    aboveMax t v = true ↔ ∃ m, t.max = some m ∧ m < v := by
  unfold aboveMax
  cases t.max <;> simp

/-- Negative characterization of `belowMin`. -/
lemma belowMin_eq_false_iff (t : Target) (v : ℚ) :
    belowMin t v = false ↔ ∀ m, t.min = some m → m ≤ v := by
  unfold belowMin
  cases t.min <;> simp [not_lt]

/-- Negative characterization of `aboveMax`. -/
lemma aboveMax_eq_false_iff (t : Target) (v : ℚ) :
    aboveMax t v = false ↔ ∀ m, t.max = some m → v ≤ m := by
  unfold aboveMax
  cases t.max <;> simp [not_lt]

/-- C2: the signed deltas accumulated by `optimize_next_year` before the
clamp/renormalize step are exactly as documented: a CFO below its min
target contributes `(2, 1, -1.5, -1.5)`; a CRO above its max target
contributes `(3, 2, -2, -3)`; a COO below its min target contributes
`(1.5, 1, -1, -1.5)`; an agent with another role name, an absent focus
KPI, or a value within target contributes zero; and the accumulated
adjustment is the fold of the per-agent deltas over the panel. -/
theorem C2_adjustment_deltas (results : KPIRecord) (agent : ExecutiveBot) :
    (∀ v, results.get agent.kpi_focus = some v →
      ((agent.name = "CFO" → (∃ m, agent.target.min = some m ∧ v < m) →
          agentDelta results agent = ⟨2, 1, -1.5, -1.5⟩) ∧
       (agent.name = "CRO" → (∃ m, agent.target.max = some m ∧ m < v) →
          agentDelta results agent = ⟨3, 2, -2, -3⟩) ∧
       (agent.name = "COO" → (∃ m, agent.target.min = some m ∧ v < m) →
          agentDelta results agent = ⟨1.5, 1, -1, -1.5⟩) ∧
       ((∀ m, agent.target.min = some m → m ≤ v) →
        (∀ m, agent.target.max = some m → v ≤ m) →
          agentDelta results agent = Alloc.zero))) ∧
    (agent.name ≠ "CFO" → agent.name ≠ "CRO" → agent.name ≠ "COO" →
       agentDelta results agent = Alloc.zero) ∧
    (results.get agent.kpi_focus = none → agentDelta results agent = Alloc.zero) ∧
    (∀ agents : List ExecutiveBot, accumulatedAdjustments agents results =
       agents.foldl (fun acc a => acc.add (agentDelta results a)) Alloc.zero) := by
  refine ⟨?_, ?_, ?_, fun agents => rfl⟩
  · intro v hv
    refine ⟨?_, ?_, ?_, ?_⟩
    · rintro hname hm
      have hb : belowMin agent.target v = true := (belowMin_iff _ _).2 hm
      simp [agentDelta, hv, hname, hb]
    · rintro hname hm
      have ha : aboveMax agent.target v = true := (aboveMax_iff _ _).2 hm
      simp [agentDelta, hv, hname, ha]
    · rintro hname hm
      have hb : belowMin agent.target v = true := (belowMin_iff _ _).2 hm
      simp [agentDelta, hv, hname, hb]
    · intro hmin hmax
      have hb : belowMin agent.target v = false := (belowMin_eq_false_iff _ _).2 hmin
      have ha : aboveMax agent.target v = false := (aboveMax_eq_false_iff _ _).2 hmax
      simp [agentDelta, hv, hb, ha]
  · intro h1 h2 h3
    cases hg : results.get agent.kpi_focus <;>
      simp [agentDelta, hg, h1, h2, h3]
  · intro hg
    simp [agentDelta, hg]

/-- C2 witness: the default CFO agent evaluated on `prevYearRecord`
(profit 0, far below the 1200000 min target) contributes exactly
`(2, 1, -1.5, -1.5)`. -/
theorem C2_adjustment_deltas_witness :
    agentDelta prevYearRecord cfoDefault = ⟨2, 1, -1.5, -1.5⟩ :=
  (((C2_adjustment_deltas prevYearRecord cfoDefault).1 0
      (by simp [prevYearRecord, cfoDefault, KPIRecord.get, List.lookup])).1)
    rfl ⟨1200000, rfl, by norm_num⟩

end AgenticBackend

namespace AgenticBackend

/-- C3: for a record containing the focus KPI, `evaluate` renders the
status computed by `statusOf`, and that status is `below_target` iff the
value is under a present min, `above_target` iff it is not under the min
and is over a present max (absent bounds defaulting to minus/plus
infinity), and `on_target` otherwise; in particular a value exactly equal
to the min, or exactly equal to the max, yields `on_target` (closed
interval at both ends). -/
theorem C3_status_characterization (bot : ExecutiveBot) (results : KPIRecord) (v : ℚ)
    (h : results.get bot.kpi_focus = some v) :
    (∃ c, bot.evaluate results = .evaluated (bot.statusOf v) c) ∧
    (bot.statusOf v = .below_target ↔ ∃ m, bot.target.min = some m ∧ v < m) ∧
    (bot.statusOf v = .above_target ↔
       ((∀ m, bot.target.min = some m → m ≤ v) ∧ ∃ m, bot.target.max = some m ∧ m < v)) ∧
    (bot.statusOf v = .on_target ↔
       ((∀ m, bot.target.min = some m → m ≤ v) ∧ (∀ m, bot.target.max = some m → v ≤ m))) ∧
    (bot.target.min = some v → (∀ m, bot.target.max = some m → v ≤ m) →
       bot.statusOf v = .on_target) ∧
    (bot.target.max = some v → (∀ m, bot.target.min = some m → m ≤ v) →
       bot.statusOf v = .on_target) := by
  refine ⟨⟨bot.getPersonalityComment (bot.statusOf v) v, by simp [ExecutiveBot.evaluate, h]⟩,
    ?_, ?_, ?_, ?_, ?_⟩
  · rw [← belowMin_iff bot.target v]
    cases hb : belowMin bot.target v <;> cases ha : aboveMax bot.target v <;>
      simp [ExecutiveBot.statusOf, hb, ha]
  · rw [← belowMin_eq_false_iff bot.target v, ← aboveMax_iff bot.target v]
    cases hb : belowMin bot.target v <;> cases ha : aboveMax bot.target v <;>
      simp [ExecutiveBot.statusOf, hb, ha]
  · rw [← belowMin_eq_false_iff bot.target v, ← aboveMax_eq_false_iff bot.target v]
    cases hb : belowMin bot.target v <;> cases ha : aboveMax bot.target v <;>
      simp [ExecutiveBot.statusOf, hb, ha]
  · intro hmin hmax
    have hb : belowMin bot.target v = false := by
      refine (belowMin_eq_false_iff _ _).2 ?_
      intro m hm
      rw [hmin] at hm
      exact le_of_eq (Option.some.inj hm.symm)
    have ha : aboveMax bot.target v = false := (aboveMax_eq_false_iff _ _).2 hmax
    simp [ExecutiveBot.statusOf, hb, ha]
  · intro hmax hmin
    have hb : belowMin bot.target v = false := (belowMin_eq_false_iff _ _).2 hmin
    have ha : aboveMax bot.target v = false := by
      refine (aboveMax_eq_false_iff _ _).2 ?_
      intro m hm
      rw [hmax] at hm
      exact le_of_eq (Option.some.inj hm.symm).symm
    simp [ExecutiveBot.statusOf, hb, ha]

/-- C3 witness: spec scenario example (2): the boundary agent with
`min = 1000000` sees the value exactly 1000000 as `on_target`. -/
theorem C3_status_characterization_witness :
    boundaryBot.statusOf 1000000 = .on_target ∧
    ∃ c, boundaryBot.evaluate boundaryRecord = .evaluated (boundaryBot.statusOf 1000000) c := by
  have h := C3_status_characterization boundaryBot boundaryRecord 1000000
    (by simp [boundaryRecord, boundaryBot, KPIRecord.get, List.lookup])
  exact ⟨h.2.2.2.2.1 rfl (fun m hm => by cases hm), h.1⟩

end AgenticBackend

namespace AgenticBackend

/-- C4: for a record containing the focus KPI, `recommend` returns the
aggressive-increase directive iff the value is below target and
`risk_tolerance > 0.6`; the gradual-increase directive iff below target
otherwise; the reduce/optimize directive iff above target, independent of
risk tolerance; the maintain-but-explore directive iff on target with
`ambition > 0.7`; and the plain maintain directive otherwise. -/
theorem C4_recommendation_rule (bot : ExecutiveBot) (results : KPIRecord) (v : ℚ)
    (h : results.get bot.kpi_focus = some v) :
    (bot.recommend results =
        bot.name ++ ": Increase investment aggressively to reach target" ↔
       (belowMin bot.target v = true ∧ bot.personality.risk_tolerance > 0.6)) ∧
    (bot.recommend results =
        bot.name ++ ": Gradual increase recommended to reach target" ↔
       (belowMin bot.target v = true ∧ ¬ bot.personality.risk_tolerance > 0.6)) ∧
    (bot.recommend results =
        bot.name ++ ": Reduce spending and optimize efficiency" ↔
       (belowMin bot.target v = false ∧ aboveMax bot.target v = true)) ∧
    (bot.recommend results =
        bot.name ++ ": Maintain strategy but explore optimization opportunities" ↔
       (belowMin bot.target v = false ∧ aboveMax bot.target v = false ∧
        bot.personality.ambition > 0.7)) ∧
    (bot.recommend results = bot.name ++ ": Maintain current strategy" ↔
       (belowMin bot.target v = false ∧ aboveMax bot.target v = false ∧
        ¬ bot.personality.ambition > 0.7)) := by
  simp only [ExecutiveBot.recommend, h]
  by_cases hrt : bot.personality.risk_tolerance > 0.6 <;>
  by_cases ham : bot.personality.ambition > 0.7 <;>
  cases hb : belowMin bot.target v <;>
  cases ha : aboveMax bot.target v <;>
    simp [hb, ha, hrt, ham, string_append_left_cancel_iff]

/-- C4 witness: spec scenario example (1): the high-risk-tolerance agent
with `min = 1000000` sees 800000 and recommends the aggressive increase. -/
theorem C4_recommendation_rule_witness :
    boundaryBot.recommend belowRecord =
      boundaryBot.name ++ ": Increase investment aggressively to reach target" :=
  ((C4_recommendation_rule boundaryBot belowRecord 800000
      (by simp [belowRecord, boundaryBot, KPIRecord.get, List.lookup])).1).2
    ⟨by simp [belowMin, boundaryBot]; norm_num, by norm_num [boundaryBot]⟩

end AgenticBackend

namespace AgenticBackend

/-- Joining a single clause with `" ".join` yields the clause itself. -/
lemma intercalate_singleton (s : String) : " ".intercalate [s] = s := rfl

/-- C5 (counterexample): the claim fails on the code.  An agent with
`ambition = 0.9 > 0.8` and `risk_tolerance = 0.2 < 0.3` whose KPI value is
above target gets the comment " (concerned about sustainability)" only:
the elif chain of `_get_personality_comment` suppresses the
"wants even higher targets" clause, so the two clauses never concatenate
and the ambitious clause is absent. -/
theorem C5_elif_counterexample :
    ambitiousCautiousBot.personality.ambition > 0.8 ∧
    ambitiousCautiousBot.personality.risk_tolerance < 0.3 ∧
    ambitiousCautiousBot.evaluate aboveTargetRecord =
      .evaluated .above_target " (concerned about sustainability)" ∧
    ¬ List.IsInfix ("wants even higher targets".data)
        (" (concerned about sustainability)".data) := by
  refine ⟨by norm_num [ambitiousCautiousBot], by norm_num [ambitiousCautiousBot], ?_, by decide⟩
  have hst : ambitiousCautiousBot.statusOf 20 = .above_target := by
    norm_num [ExecutiveBot.statusOf, belowMin, aboveMax, ambitiousCautiousBot]
  have hget : aboveTargetRecord.get ambitiousCautiousBot.kpi_focus = some 20 := by
    simp [aboveTargetRecord, ambitiousCautiousBot, KPIRecord.get, List.lookup]
  simp only [ExecutiveBot.evaluate, hget, hst]
  norm_num [ExecutiveBot.getPersonalityComment, ambitiousCautiousBot, intercalate_singleton]

/-- C5 (amended): in the above-target branch the low-risk-tolerance clause
takes priority: when `risk_tolerance < 0.3` the rendered comment is
exactly " (concerned about sustainability)" regardless of ambition, and the
"wants even higher targets" clause appears (alone) only when
`ambition > 0.8` and `risk_tolerance ≥ 0.3`; the two clauses never
concatenate. -/
theorem C5_above_target_comment (bot : ExecutiveBot) (results : KPIRecord) (v : ℚ)
    (h : results.get bot.kpi_focus = some v)
    (hst : bot.statusOf v = .above_target) :
    (bot.personality.risk_tolerance < 0.3 →
       bot.evaluate results = .evaluated .above_target " (concerned about sustainability)") ∧
    (¬ bot.personality.risk_tolerance < 0.3 → bot.personality.ambition > 0.8 →
       bot.evaluate results = .evaluated .above_target " (wants even higher targets)") := by
  have he : bot.evaluate results =
      .evaluated .above_target (bot.getPersonalityComment .above_target v) := by
    simp only [ExecutiveBot.evaluate, h, hst]
  constructor
  · intro h1
    rw [he]
    simp [ExecutiveBot.getPersonalityComment, h1, intercalate_singleton]
  · intro h1 h2
    rw [he]
    simp [ExecutiveBot.getPersonalityComment, h1, h2, intercalate_singleton]

/-- C5 witness: the amended statement applied to the ambitious cautious
agent above target yields exactly the sustainability comment. -/
theorem C5_above_target_comment_witness :
    ambitiousCautiousBot.evaluate aboveTargetRecord =
      .evaluated .above_target " (concerned about sustainability)" :=
  (C5_above_target_comment ambitiousCautiousBot aboveTargetRecord 20
      (by simp [aboveTargetRecord, ambitiousCautiousBot, KPIRecord.get, List.lookup])
      (by norm_num [ExecutiveBot.statusOf, belowMin, aboveMax, ambitiousCautiousBot])).1
    (by norm_num [ambitiousCautiousBot])

end AgenticBackend

namespace AgenticBackend

/-- C6: when the focus KPI is absent from the record, `evaluate` returns
the not-found message (the unknown outcome) and never a status, and
`recommend` likewise returns its cannot-recommend message; both return
normally (they are total functions in this embedding, so no exception is
possible). -/
theorem C6_missing_kpi (bot : ExecutiveBot) (results : KPIRecord)
    (h : results.get bot.kpi_focus = none) :
    bot.evaluate results =
      .unknown (bot.name ++ ": KPI \x27" ++ bot.kpi_focus ++ "\x27 not found in results") ∧
    (∀ s c, bot.evaluate results ≠ .evaluated s c) ∧
    bot.recommend results =
      bot.name ++ ": Cannot recommend without " ++ bot.kpi_focus ++ " data" := by
  refine ⟨by simp [ExecutiveBot.evaluate, h], ?_, by simp [ExecutiveBot.recommend, h]⟩
  intro s c hc
  simp [ExecutiveBot.evaluate, h] at hc

/-- C6 witness: the boundary agent on the empty record gets the unknown
outcome from both `evaluate` and `recommend`. -/
theorem C6_missing_kpi_witness :
    boundaryBot.evaluate emptyRecord =
      .unknown (boundaryBot.name ++ ": KPI \x27" ++ boundaryBot.kpi_focus ++
        "\x27 not found in results") ∧
    boundaryBot.recommend emptyRecord =
      boundaryBot.name ++ ": Cannot recommend without " ++ boundaryBot.kpi_focus ++ " data" :=
  ⟨(C6_missing_kpi boundaryBot emptyRecord rfl).1,
   (C6_missing_kpi boundaryBot emptyRecord rfl).2.2⟩

/-- The running maximum kept by `bestScoreRow` stays in the candidate set,
never decreases the score of the seed, and dominates every candidate. -/
lemma foldl_best_spec (xs : List SimRow) (b : SimRow) :
    (xs.foldl (fun best r => if seedScore r > seedScore best then r else best) b = b ∨
     xs.foldl (fun best r => if seedScore r > seedScore best then r else best) b ∈ xs) ∧
    seedScore b ≤
      seedScore (xs.foldl (fun best r => if seedScore r > seedScore best then r else best) b) ∧
    ∀ q ∈ xs, seedScore q ≤
      seedScore (xs.foldl (fun best r => if seedScore r > seedScore best then r else best) b) := by
  induction xs generalizing b with
  | nil => simp
  | cons x xs ih =>
    simp only [List.foldl_cons]
    obtain ⟨h1, h2, h3⟩ := ih (if seedScore x > seedScore b then x else b)
    have hb' : seedScore b ≤ seedScore (if seedScore x > seedScore b then x else b) := by
      split_ifs with hc
      · exact le_of_lt hc
      · exact le_refl _
    have hx' : seedScore x ≤ seedScore (if seedScore x > seedScore b then x else b) := by
      split_ifs with hc
      · exact le_refl _
      · exact le_of_not_lt hc
    refine ⟨?_, le_trans hb' h2, ?_⟩
    · rcases h1 with h | h
      · rw [h]
        split_ifs with hc
        · exact Or.inr (List.mem_cons_self _ _)
        · exact Or.inl rfl
      · exact Or.inr (List.mem_cons_of_mem _ h)
    · intro q hq
      rcases List.mem_cons.1 hq with rfl | hq
      · exact le_trans hx' h2
      · exact h3 q hq

/-- On a non-empty pool `bestScoreRow` returns a member of the pool whose
seed score dominates every member. -/
lemma bestScoreRow_spec (l : List SimRow) (hl : l ≠ []) :
    ∃ r, bestScoreRow l = some r ∧ r ∈ l ∧ ∀ q ∈ l, seedScore q ≤ seedScore r := by
  cases l with
  | nil => exact absurd rfl hl
  | cons x xs =>
    obtain ⟨h1, h2, h3⟩ := foldl_best_spec xs x
    refine ⟨_, rfl, ?_, ?_⟩
    · rcases h1 with h | h
      · rw [h]; exact List.mem_cons_self _ _
      · exact List.mem_cons_of_mem _ h
    · intro q hq
      rcases List.mem_cons.1 hq with rfl | hq
      · exact h2
      · exact h3 q hq

/-- The 60-month restriction never empties a non-empty pool: when no
60-month rows exist the code falls back to the whole pool. -/
lemma fiveYearPool_ne_nil (pool : List SimRow) (hp : pool ≠ []) :
    fiveYearPool pool ≠ [] := by
  unfold fiveYearPool
  by_cases h : (pool.filter (fun r => r.monthsCompleted == 60)).length = 0
  · simpa [h] using hp
  · simp only [h, if_false, eq_self_iff_true, if_neg, ite_false]
    intro hn
    exact h (by rw [hn]; rfl)

/-- C7: on a non-empty pool, with no initial strategy the year-1 seed is a
row of the (60-month-restricted, with fallback) pool maximizing the score
`profit/1000 - compromised*10`, with `F1..F4` estimated from that row;
with an initial strategy its `F1..F4` are used as the seed allocation
instead of the score-based selection (the data row is then simply the
first row of the pool). -/
theorem C7_year1_seed (pool : List SimRow) (strategy : Option Alloc) (hp : pool ≠ []) :
    fiveYearPool pool ≠ [] ∧
    (strategy = none →
      ∃ r, seedYear1 pool none = some (estimate_f1_f4_from_data r, r) ∧
        r ∈ fiveYearPool pool ∧ ∀ q ∈ fiveYearPool pool, seedScore q ≤ seedScore r) ∧
    (∀ s, strategy = some s →
      (∃ r, seedYear1 pool (some s) = some (s, r)) ∧
      seedYear1 pool (some s) = (fiveYearPool pool).head?.map (fun r => (s, r))) := by
  have hfy := fiveYearPool_ne_nil pool hp
  refine ⟨hfy, ?_, ?_⟩
  · intro _
    obtain ⟨r, hr, hmem, hmax⟩ := bestScoreRow_spec (fiveYearPool pool) hfy
    refine ⟨r, ?_, hmem, hmax⟩
    simp [seedYear1, hr]
  · intro s _
    refine ⟨?_, rfl⟩
    cases hfp : fiveYearPool pool with
    | nil => exact absurd hfp hfy
    | cons x xs => exact ⟨x, by simp [seedYear1, hfp]⟩

/-- C7 witness: on the concrete pool `[rowC, rowA, rowB]` (one 12-month
row, two 60-month rows) the no-strategy seed is a score-maximal member of
the restricted pool. -/
theorem C7_year1_seed_witness :
    ∃ r, seedYear1 [rowC, rowA, rowB] none = some (estimate_f1_f4_from_data r, r) ∧
      r ∈ fiveYearPool [rowC, rowA, rowB] ∧
      ∀ q ∈ fiveYearPool [rowC, rowA, rowB], seedScore q ≤ seedScore r :=
  ((C7_year1_seed [rowC, rowA, rowB] none (by simp)).2.1) rfl

end AgenticBackend

namespace AgenticBackend

/-- C8: the recorded compliance status is `below_min` iff a min is given
and the actual value is under it; otherwise `above_max` iff a max is given
and the value is over it; otherwise `off_target` iff a target is given and
the value lies outside the closed band `target ± |target| * 0.1`; and
`on_target` otherwise — the ±10% tolerance band applies only when neither
the min branch nor the max branch fired. -/
theorem C8_compliance_status (a : ℚ) (minV maxV targetV : Option ℚ) :
    (complianceStatus a minV maxV targetV = .below_min ↔
       ∃ m, minV = some m ∧ a < m) ∧
    (complianceStatus a minV maxV targetV = .above_max ↔
       ((∀ m, minV = some m → m ≤ a) ∧ ∃ m, maxV = some m ∧ m < a)) ∧
    (complianceStatus a minV maxV targetV = .off_target ↔
       ((∀ m, minV = some m → m ≤ a) ∧ (∀ m, maxV = some m → a ≤ m) ∧
        ∃ t, targetV = some t ∧ ¬ (t - |t| * 0.1 ≤ a ∧ a ≤ t + |t| * 0.1))) ∧
    (complianceStatus a minV maxV targetV = .on_target ↔
       ((∀ m, minV = some m → m ≤ a) ∧ (∀ m, maxV = some m → a ≤ m) ∧
        ∀ t, targetV = some t → (t - |t| * 0.1 ≤ a ∧ a ≤ t + |t| * 0.1))) := by
  rcases minV with _ | m <;> rcases maxV with _ | M <;> rcases targetV with _ | t <;>
    simp only [complianceStatus, decide_eq_true_eq] <;>
    split_ifs with h1 h2 h3 <;>
    simp_all [not_lt, not_le]

/-- C8 witness: with only a target of 100 given, an actual value of 89
falls outside the band [90, 110] and is recorded `off_target`. -/
theorem C8_compliance_status_witness :
    complianceStatus 89 none none (some 100) = .off_target :=
  ((C8_compliance_status 89 none none (some 100)).2.2.1).2
    ⟨fun m hm => Option.noConfusion hm, fun m hm => Option.noConfusion hm,
     100, rfl, by norm_num⟩

/-- C9: `simulate_interaction` is total on non-empty panels, returning one
of the four fixed messages; on an empty panel the collaborative branch
divides by zero (modelled as `none`), while every other setting still
returns a message. -/
theorem C9_simulate_interaction_totality (bots : List ExecutiveBot) (setting : String) :
    (bots ≠ [] → ∃ msg, simulate_interaction bots setting = some msg ∧
       msg ∈ ["Bots work together constructively, finding common ground and shared strategy.",
              "Bots align toward compromise, though some tension remains.",
              "Bots argue over priorities, each defending their domain. No consensus reached.",
              "Professional interaction. Each bot focuses on their own KPIs."]) ∧
    (setting ≠ "collaborative" → ∃ msg, simulate_interaction [] setting = some msg) ∧
    simulate_interaction [] "collaborative" = none := by
  refine ⟨?_, ?_, rfl⟩
  · intro hb
    simp only [simulate_interaction]
    split_ifs with h1 h2 h3
    · exact absurd (List.length_eq_zero.mp h2) hb
    · exact ⟨_, rfl, by simp⟩
    · exact ⟨_, rfl, by simp⟩
    · exact ⟨_, rfl, by simp⟩
    · exact ⟨_, rfl, by simp⟩
  · intro hs
    have h1 : (setting == "collaborative") = false := beq_eq_false_iff_ne.mpr hs
    simp only [simulate_interaction, h1, Bool.false_eq_true, if_false]
    split_ifs <;> exact ⟨_, rfl⟩

/-- C9 witness: the default three-agent panel gets a message in the
collaborative setting, and a nonstandard setting on the empty panel still
returns a message. -/
theorem C9_simulate_interaction_totality_witness :
    (∃ msg, simulate_interaction defaultPanel "collaborative" = some msg ∧
       msg ∈ ["Bots work together constructively, finding common ground and shared strategy.",
              "Bots align toward compromise, though some tension remains.",
              "Bots argue over priorities, each defending their domain. No consensus reached.",
              "Professional interaction. Each bot focuses on their own KPIs."]) ∧
    (∃ msg, simulate_interaction [] "neutral" = some msg) :=
  ⟨(C9_simulate_interaction_totality defaultPanel "collaborative").1 (by simp [defaultPanel]),
   (C9_simulate_interaction_totality [] "neutral").2.1 (by simp)⟩

/-- C10: the personality adjustments made when constructing the
optimizer's panel keep every trait inside `[0,1]`: for any base traits in
`[0,1]`, any collaborative flag and any risk-tolerance level among low,
medium and high, the adjusted personality lies in `[0,1]^3`. -/
theorem C10_personality_clamped (p : Personality) (collaborative : Bool) (level : String)
    (hlevel : level = "low" ∨ level = "medium" ∨ level = "high")
    (h1 : 0 ≤ p.risk_tolerance) (h2 : p.risk_tolerance ≤ 1)
    (h3 : 0 ≤ p.friendliness) (h4 : p.friendliness ≤ 1)
    (h5 : 0 ≤ p.ambition) (h6 : p.ambition ≤ 1) :
    0 ≤ (adjustPersonality p collaborative level).risk_tolerance ∧
    (adjustPersonality p collaborative level).risk_tolerance ≤ 1 ∧
    0 ≤ (adjustPersonality p collaborative level).friendliness ∧
    (adjustPersonality p collaborative level).friendliness ≤ 1 ∧
    0 ≤ (adjustPersonality p collaborative level).ambition ∧
    (adjustPersonality p collaborative level).ambition ≤ 1 := by
  unfold adjustPersonality
  rcases hlevel with h | h | h <;> subst h <;> cases collaborative <;>
    refine ⟨?_, ?_, ?_, ?_, ?_, ?_⟩ <;>
    simp <;>
    first
      | exact le_max_left _ _
      | exact min_le_left _ _
      | exact max_le (by norm_num) (by linarith)
      | exact le_min (by norm_num) (by linarith)
      | linarith

/-- C10 witness: the default CFO personality, collaborative flag and high
risk tolerance yield an adjusted personality inside the unit cube. -/
theorem C10_personality_clamped_witness :
    0 ≤ (adjustPersonality cfoDefault.personality true "high").risk_tolerance ∧
    (adjustPersonality cfoDefault.personality true "high").risk_tolerance ≤ 1 ∧
    0 ≤ (adjustPersonality cfoDefault.personality true "high").friendliness ∧
    (adjustPersonality cfoDefault.personality true "high").friendliness ≤ 1 ∧
    0 ≤ (adjustPersonality cfoDefault.personality true "high").ambition ∧
    (adjustPersonality cfoDefault.personality true "high").ambition ≤ 1 :=
  C10_personality_clamped cfoDefault.personality true "high"
    (Or.inr (Or.inr rfl))
    (by norm_num [cfoDefault]) (by norm_num [cfoDefault])
    (by norm_num [cfoDefault]) (by norm_num [cfoDefault])
    (by norm_num [cfoDefault]) (by norm_num [cfoDefault])

end AgenticBackend
